import Mathlib

/-
Verification development for the cell-flow perturbation data pipeline.
Shallow embedding of src/cfp/data/data.py (PerturbationData, TrainingData,
ValidationData) and src/cfp/training/callbacks.py (CallbackRunner), with
theorems settling the specification claims about them.

Conventions of the embedding:
  - pandas/numpy values are modelled by the inductive type PyV (strings,
    rationals for floats, booleans, a missing value);
  - a pandas column is a dtype together with its list of per-cell values;
  - numpy/jax arrays are row-major: a shape plus a flat list of rationals;
  - Python exceptions are modelled by the Except monad with the error
    taxonomy PErr; an f-string that references an undefined name is
    modelled as a NameError raised where the message would be built.
-/

set_option maxRecDepth 10000

/-- Error taxonomy of the embedded Python code. -/
inductive PErr
  | valueError (msg : String)
  | nameError (msg : String)
  | typeError
  | keyError
  | attributeError
  | indexError
deriving DecidableEq, Repr

/-- Decidable equality for Except results, so that concrete runs of the
embedded functions can be checked by decide. -/
instance instDecidableEqExcept {ε α : Type} [DecidableEq ε] [DecidableEq α] :
    DecidableEq (Except ε α)
  | .ok x, .ok y =>
    if h : x = y then .isTrue (by rw [h])
    else .isFalse (fun hc => h (Except.ok.inj hc))
  | .error x, .error y =>
    if h : x = y then .isTrue (by rw [h])
    else .isFalse (fun hc => h (Except.error.inj hc))
  | .ok _, .error _ => .isFalse (fun hc => Except.noConfusion hc)
  | .error _, .ok _ => .isFalse (fun hc => Except.noConfusion hc)

/-- Row-major n-dimensional array of rationals: a shape plus flat data. -/
structure NDArray where
  shape : List Nat
  data : List ℚ
deriving DecidableEq, Repr

/-- Embedding of PerturbationData._check_shape (data.py lines 255-276):
scalars and 1-D arrays become a (1, n) row, a (1, n) row is returned
unchanged, an (n, 1) column is transposed to a row (row-major data of a
column is unchanged by transposition), any other 2-D shape and any rank
above two raise ValueError. -/
def checkShape (arr : NDArray) : Except PErr NDArray :=
  match arr.shape with
  | [] => .ok { shape := [1, 1], data := arr.data }
  | [n] => .ok { shape := [1, n], data := arr.data }
  | [a, b] =>
    if a = 1 then .ok arr
    else if b = 1 then .ok { shape := [1, a], data := arr.data }
    else .error (.valueError "Condition representation has an unexpected shape. Should be (1, n_features) or (n_features, ).")
  | _ :: _ :: _ :: _ =>
    .error (.valueError "Condition representation has too many dimensions. Should be 1 or 2.")

/-- Embedding of PerturbationData._pad_to_max_length (data.py lines 288-297):
append null-value rows below the array until it has max_combination_length
rows; no-op when the row count is already at or above that length. The
source reads arr.shape[0] and arr.shape[1] (its callers pass 2-D arrays
only); the model reads them with default 0. -/
def padToMaxLength (arr : NDArray) (maxCombinationLength : Nat) (nullValue : ℚ) : NDArray :=
  let rows := arr.shape.getD 0 0
  let cols := arr.shape.getD 1 0
  if rows < maxCombinationLength then
    { shape := [maxCombinationLength, cols],
      data := arr.data ++ List.replicate ((maxCombinationLength - rows) * cols) nullValue }
  else arr

/-- Observed maximum length over the declared perturbation covariate groups. -/
def obsMaxCombinationLength (pcs : List (String × List (Option String))) : Nat :=
  (pcs.map (fun g => g.2.length)).foldl Nat.max 0

/-- Embedding of PerturbationData._get_max_combination_length (data.py lines
190-206). The Bool of the result records whether warnings.warn was called.
An empty group mapping makes the Python max() raise ValueError. -/
def getMaxCombinationLength (perturbationCovariates : List (String × List (Option String)))
    (maxCombinationLength : Option Nat) : Except PErr (Nat × Bool) :=
  match perturbationCovariates with
  | [] => .error (.valueError "max() arg is an empty sequence")
  | _ =>
    match maxCombinationLength with
    | none => .ok (obsMaxCombinationLength perturbationCovariates, false)
    | some m =>
      if m < obsMaxCombinationLength perturbationCovariates then
        .ok (obsMaxCombinationLength perturbationCovariates, true)
      else .ok (m, false)

/-
Dynamic (untyped) model of _verify_perturbation_covariates, used for the
claims about the raw Python-level type checks in data.py lines 99-120.
-/

/-- Untyped Python values as received by _verify_perturbation_covariates. -/
inductive PyObj
  | pyDict (entries : List (PyObj × PyObj))
  | pyList (elems : List PyObj)
  | pyTuple (elems : List PyObj)
  | pyStr (s : String)
  | pyInt (n : Int)
  | pyNone

def pyObjIsStr : PyObj → Bool
  | .pyStr _ => true
  | _ => false

def pyObjIsTupleOrList : PyObj → Bool
  | .pyTuple _ => true
  | .pyList _ => true
  | _ => false

/-- Embedding of PerturbationData._verify_covariate_data (data.py lines
148-152) over untyped values: a non-None covariate that is not an obs
column raises ValueError. -/
def verifyCovariateDataDyn (obsCols : List String) : List PyObj → Except PErr Unit
  | [] => .ok ()
  | .pyNone :: rest => verifyCovariateDataDyn obsCols rest
  | .pyStr s :: rest =>
    if obsCols.contains s then verifyCovariateDataDyn obsCols rest
    else .error (.valueError "Covariate not found in adata.obs.")
  | _ :: _ => .error (.valueError "Covariate not found in adata.obs.")

/-- Per-entry loop of _verify_perturbation_covariates (data.py lines
107-120). When a group value is not a tuple or list, the error message is
an f-string that references the undefined name covar (the loop variable is
covars), so evaluating the message raises NameError before the ValueError
is constructed. -/
def verifyPerturbationCovariatesDynGo (obsCols : List String) :
    List (PyObj × PyObj) → Except PErr Unit
  | [] => .ok ()
  | (key, covars) :: rest =>
    if !(pyObjIsStr key) then
      .error (.valueError "Key should be a string.")
    else if !(pyObjIsTupleOrList covars) then
      .error (.nameError "name covar is not defined")
    else
      match covars with
      | .pyTuple elems | .pyList elems =>
        if elems.length = 0 then
          .error (.valueError "No covariates provided for perturbation group.")
        else
          match verifyCovariateDataDyn obsCols elems with
          | .error e => .error e
          | .ok _ => verifyPerturbationCovariatesDynGo obsCols rest
      | _ => .error .typeError

/-- Embedding of PerturbationData._verify_perturbation_covariates (data.py
lines 99-120) over untyped values. -/
def verifyPerturbationCovariatesDyn (obsCols : List String) (data : PyObj) :
    Except PErr Unit :=
  match data with
  | .pyDict entries =>
    if entries.length = 0 then .error (.valueError "No perturbation covariates provided.")
    else verifyPerturbationCovariatesDynGo obsCols entries
  | _ => .error (.valueError "perturbation_covariates should be a dictionary.")

/-
Callback runner model (callbacks.py lines 262-372).
-/

/-- A callback is a ComputationCallback or a LoggingCallback instance; the
runner splits the input list by isinstance checks. -/
inductive CBKind
  | comp
  | logg
deriving DecidableEq, Repr

/-- Embedding of CallbackRunner.__init__ (callbacks.py lines 276-295). The
guard is the Python expression
  len(self.computation_callbacks) == 0 & len(self.logging_callbacks) != 0
which, by operator precedence, is the chained comparison
  len(comps) == (0 & len(logs))  and  (0 & len(logs)) != 0. -/
def callbackRunnerInit (callbacks : List CBKind) :
    Except PErr (List CBKind × List CBKind) :=
  let computationCallbacks := callbacks.filter (fun c => c == .comp)
  let loggingCallbacks := callbacks.filter (fun c => c == .logg)
  if (computationCallbacks.length == 0 &&& loggingCallbacks.length) &&
      (0 &&& loggingCallbacks.length != 0) then
    .error (.valueError "No computation callbacks defined to compute metrics to log")
  else .ok (computationCallbacks, loggingCallbacks)

/-- Stage argument of CallbackRunner._sample_validation_data. -/
inductive Stage
  | onLogIteration
  | onTrainEnd
deriving DecidableEq, Repr

/-- Sampling-policy attributes of one named validation dataset. The two
sample-count attributes are modelled from the spec (the ValidationData
container in src declares no such fields; the runner reads them as
attributes), numConditions is len(condition_data). -/
structure ValDataCB where
  nConditionsOnLogIteration : Int
  nConditionsOnTrainEnd : Int
  numConditions : Nat
deriving DecidableEq, Repr

/-- The per-stage sample-count selector of _sample_validation_data
(callbacks.py lines 301-306). -/
def nConditionsToSample : Stage → ValDataCB → Int
  | .onTrainEnd, v => v.nConditionsOnTrainEnd
  | .onLogIteration, v => v.nConditionsOnLogIteration

/-- Result of subsampling one named validation dataset: the full container
(for the sentinel -1), or the value of the subsampling dict comprehension,
which only the empty draw survives. -/
inductive SampledVD
  | full (vd : ValDataCB)
  | emptyDraw
deriving DecidableEq, Repr

/-- Embedding of CallbackRunner._sample_validation_data (callbacks.py lines
297-318). With the sentinel -1 the full dataset is kept; rng.choice with an
invalid sample size raises ValueError; a zero draw makes the comprehension
build an empty dict; any nonempty draw makes the comprehension index the
dataset name string with a drawn condition index and subscript the
ValidationData object, which raises TypeError (IndexError first when the
drawn index exceeds the name length; both are modelled as typeError). -/
def sampleValidationData (stage : Stage) :
    List (String × ValDataCB) → Except PErr (List (String × SampledVD))
  | [] => .ok []
  | (name, vd) :: rest =>
    let n := nConditionsToSample stage vd
    if n == -1 then
      match sampleValidationData stage rest with
      | .error e => .error e
      | .ok r => .ok ((name, .full vd) :: r)
    else if n == 0 then
      match sampleValidationData stage rest with
      | .error e => .error e
      | .ok r => .ok ((name, .emptyDraw) :: r)
    else if 0 ≤ n ∧ n ≤ (vd.numConditions : Int) then
      .error .typeError
    else
      .error (.valueError "rng.choice invalid sample size")

/-- Python dict.update on an insertion-ordered association list: existing
keys are overwritten in place, new keys are appended. -/
def pyDictUpdate (d newEntries : List (String × ℚ)) : List (String × ℚ) :=
  newEntries.foldl (fun acc kv =>
    if acc.any (fun p => p.1 == kv.1) then
      acc.map (fun p => if p.1 == kv.1 then (p.1, kv.2) else p)
    else acc ++ [kv]) d

/-- Embedding of CallbackRunner.on_log_iteration (callbacks.py lines
328-349): sample with the on_log_iteration stage, run every computation
callback on the sampled data merging results, forward to logging callbacks
and return the merged mapping. -/
def runnerOnLogIteration
    (comps : List (List (String × SampledVD) → List (String × ℚ)))
    (data : List (String × ValDataCB)) : Except PErr (List (String × ℚ)) :=
  match sampleValidationData .onLogIteration data with
  | .error e => .error e
  | .ok vd => .ok (comps.foldl (fun acc c => pyDictUpdate acc (c vd)) [])

/-- Embedding of CallbackRunner.on_train_end (callbacks.py lines 351-371):
the source passes stage "on_log_iteration" to _sample_validation_data
(line 363), then runs the same compute/merge/forward sequence. -/
def runnerOnTrainEnd
    (comps : List (List (String × SampledVD) → List (String × ℚ)))
    (data : List (String × ValDataCB)) : Except PErr (List (String × ℚ)) :=
  match sampleValidationData .onLogIteration data with
  | .error e => .error e
  | .ok vd => .ok (comps.foldl (fun acc c => pyDictUpdate acc (c vd)) [])

/-
Data model for AnnData objects: per-cell metadata (obs), unstructured
annotations (uns), the cell-feature matrix X and the obsm store.
-/

/-- A pandas cell value: a string, a float (as a rational), a boolean, or
a missing value. -/
inductive PyV
  | s (v : String)
  | f (v : ℚ)
  | b (v : Bool)
  | vnone
deriving DecidableEq, Repr

/-- The pandas dtypes the pipeline coerces between. -/
inductive Dtype
  | objectD
  | booleanD
  | float64
  | categoryD
deriving DecidableEq, Repr

/-- A pandas column: its dtype and its per-cell values. -/
structure Col where
  dtype : Dtype
  vals : List PyV
deriving DecidableEq, Repr

/-- Per-cell metadata: an insertion-ordered mapping from column name to
column, as in a pandas DataFrame. -/
abbrev Obs := List (String × Col)

def lookupCol (obs : Obs) (k : String) : Option Col :=
  match obs with
  | [] => none
  | p :: rest => if p.1 == k then some p.2 else lookupCol rest k

/-- Column assignment adata.obs[k] = c: replace the column in place if the
name exists, otherwise append a new column. -/
def setCol (obs : Obs) (k : String) (c : Col) : Obs :=
  if obs.any (fun p => p.1 == k) then
    obs.map (fun p => if p.1 == k then (k, c) else p)
  else obs ++ [(k, c)]

/-- An entry of adata.uns: either a dict from covariate value to its
representation array, or some other object. -/
inductive UnsEntry
  | udict (entries : List (PyV × NDArray))
  | uother
deriving DecidableEq, Repr

abbrev Uns := List (String × UnsEntry)

def lookupUns (uns : Uns) (k : String) : Option UnsEntry :=
  (uns.find? (fun p => p.1 == k)).map Prod.snd

/-- An AnnData object: cell count, per-cell metadata, cell-feature matrix
(one row per cell), the obsm store and the unstructured annotations. -/
structure AData where
  nObs : Nat
  obs : Obs
  X : List (List ℚ)
  obsm : List (String × List (List ℚ))
  uns : Uns
deriving DecidableEq, Repr

/-- Well-formedness: all obs columns and X have one entry per cell. -/
def adWF (ad : AData) : Bool :=
  ad.obs.all (fun p => p.2.vals.length == ad.nObs) && (ad.X.length == ad.nObs)

/-- Value of column k at cell i (vnone when the column or row is absent). -/
def getVal (obs : Obs) (k : String) (i : Nat) : PyV :=
  match lookupCol obs k with
  | some c => c.vals.getD i .vnone
  | none => .vnone

/-- A pandas column label: data.py addresses adata.obs both with plain
string labels (TrainingData, control_key) and with a (column, value) tuple
(ValidationData, control_data). -/
inductive PyLabel
  | str (s : String)
  | pair (c : String) (v : PyV)
deriving DecidableEq, Repr

/-- Column lookup by label: obs columns are string-labelled, so a tuple
label matches no column. -/
def lookupColLabel (obs : Obs) : PyLabel → Option Col
  | .str s => lookupCol obs s
  | .pair _ _ => none

/-- Coercion of one value by Series.astype("boolean"): booleans pass
through, floats 0 and 1 become booleans, everything else fails. -/
def coerceBoolVal : PyV → Option PyV
  | .b x => some (.b x)
  | .f x => if x = 0 then some (.b false) else if x = 1 then some (.b true) else none
  | _ => none

/-- Series.astype("boolean") on a whole column. -/
def astypeBoolean (c : Col) : Option Col :=
  match c.vals.mapM coerceBoolVal with
  | some vs => some { dtype := .booleanD, vals := vs }
  | none => none

/-- Coercion of one value by Series.astype(float): floats pass through and
booleans become 0/1. Strings are modelled as non-coercible (numeric-literal
strings are outside this model). -/
def astypeFloatVal : PyV → Option ℚ
  | .f x => some x
  | .b x => some (if x then 1 else 0)
  | _ => none

/-- Series.astype(float) on a whole column. -/
def astypeFloat (c : Col) : Option Col :=
  match c.vals.mapM astypeFloatVal with
  | some vs => some { dtype := .float64, vals := vs.map .f }
  | none => none

/-- Embedding of PerturbationData._verify_control_data (data.py lines
85-97), parameterised over the label form. A non-boolean column is coerced
with astype("boolean") and written back into the caller's obs (in-place
mutation); a column with no true entry raises ValueError. A tuple label
matches no column, so the very first check fails. -/
def verifyControlDataL (obs : Obs) (key : PyLabel) : Except PErr Obs :=
  match lookupColLabel obs key with
  | none => .error (.valueError "Control column not found in adata.obs.")
  | some c =>
    let step : Except PErr (Obs × Col) :=
      if c.dtype = .booleanD then .ok (obs, c)
      else
        match astypeBoolean c with
        | some c2 =>
          match key with
          | .str s => .ok (setCol obs s c2, c2)
          | .pair _ _ => .ok (obs, c2)
        | none => .error (.valueError "Control column could not be converted to boolean.")
    match step with
    | .error e => .error e
    | .ok (obs2, c2) =>
      if c2.vals.countP (fun v => v == .b true) = 0 then
        .error (.valueError "No control cells found in adata.")
      else .ok obs2

/-- First-appearance deduplication helper (pandas drop_duplicates keeps the
first occurrence). -/
def distinctFirstAux {α : Type} [DecidableEq α] (seen : List α) : List α → List α
  | [] => []
  | x :: xs =>
    if seen.contains x then distinctFirstAux seen xs
    else x :: distinctFirstAux (seen ++ [x]) xs

/-- Distinct elements of a list in first-appearance order. -/
def distinctFirst {α : Type} [DecidableEq α] (l : List α) : List α :=
  distinctFirstAux [] l

/-- Kernel-reducible lexicographic comparison on character lists. -/
def charListLt : List Char → List Char → Bool
  | [], [] => false
  | [], _ :: _ => true
  | _ :: _, [] => false
  | c :: cs, d :: ds =>
    if c.toNat < d.toNat then true
    else if d.toNat < c.toNat then false
    else charListLt cs ds

/-- Lexicographic strict order on strings. -/
def strLtB (a b : String) : Bool := charListLt a.data b.data

/-- Sorting order on pandas values used by np.unique and by fitted encoder
categories: booleans, then floats, then strings, then missing. -/
def pyvLe (a b : PyV) : Bool :=
  match a, b with
  | .b x, .b y => !x || y
  | .b _, _ => true
  | .f _, .b _ => false
  | .f x, .f y => decide (x ≤ y)
  | .f _, _ => true
  | .s _, .b _ => false
  | .s _, .f _ => false
  | .s x, .s y => !(strLtB y x)
  | .s _, .vnone => true
  | .vnone, .vnone => true
  | .vnone, _ => false

def insertSorted (x : PyV) : List PyV → List PyV
  | [] => [x]
  | y :: ys => if pyvLe x y then x :: y :: ys else y :: insertSorted x ys

/-- Sorted distinct values, as np.unique produces them. -/
def sortedUnique (l : List PyV) : List PyV :=
  (distinctFirst l).foldl (fun acc x => insertSorted x acc) []

/-- Per-covariate loop of PerturbationData._check_covariate_type (data.py
lines 231-253): try astype(float) on each column, otherwise
astype("category") (which always succeeds for the value kinds of this
model), writing the coerced column back into the caller's obs and
recording whether the column is categorical. A None covariate name or a
missing column raises KeyError on adata.obs[covariate]. -/
def checkCovariateTypeAux (obs : Obs) (colIsCat : List Bool) :
    List (Option String) → Except PErr (Obs × List Bool)
  | [] => .ok (obs, colIsCat)
  | none :: _ => .error .keyError
  | some s :: rest =>
    match lookupCol obs s with
    | none => .error .keyError
    | some c =>
      match astypeFloat c with
      | some c2 => checkCovariateTypeAux (setCol obs s c2) (colIsCat ++ [false]) rest
      | none =>
        checkCovariateTypeAux (setCol obs s { dtype := .categoryD, vals := c.vals })
          (colIsCat ++ [true]) rest

/-- Embedding of PerturbationData._check_covariate_type (data.py lines
231-253): max(col_is_cat) != min(col_is_cat) raises ValueError (mixed
group), max of an empty list raises ValueError, and the result is
max(col_is_cat). -/
def checkCovariateType (obs : Obs) (covars : List (Option String)) :
    Except PErr (Obs × Bool) :=
  match checkCovariateTypeAux obs [] covars with
  | .error e => .error e
  | .ok (obs2, colIsCat) =>
    match colIsCat with
    | [] => .error (.valueError "max() arg is an empty sequence")
    | _ =>
      if colIsCat.any (fun x => x) && !(colIsCat.all (fun x => x)) then
        .error (.valueError "Groups of perturbation covariates should be either all numeric/boolean or all categorical.")
      else .ok (obs2, colIsCat.any (fun x => x))

/-- The three possible Python return shapes of _get_primary_covar_encoder:
None (precomputed representation declared), a bare fitted encoder
(categorical branch, line 225), or the (encoder, is_categorical) pair
(numeric branch, line 229). An encoder is modelled by the sorted distinct
values it was fitted on. -/
inductive EncoderReturn
  | noneEnc
  | bare (fitted : List PyV)
  | withFlag (fitted : List PyV) (isCategorical : Bool)
deriving DecidableEq, Repr

/-- Row-major flattening of adata.obs[covars].values, as read by the
categorical encoder fit. -/
def flattenVals (obs : Obs) (nObs : Nat) (covars : List (Option String)) : List PyV :=
  ((List.range nObs).map (fun i =>
    covars.map (fun c =>
      match c with
      | some s => getVal obs s i
      | none => PyV.vnone))).flatten

/-- Embedding of PerturbationData._get_primary_covar_encoder (data.py lines
208-229). Note the source returns a bare encoder in the categorical branch
but an (encoder, is_categorical) pair in the numeric branch; the covariate
type check mutates the caller's obs, so the updated obs is returned too. -/
def getPrimaryCovarEncoder (obs : Obs) (nObs : Nat)
    (perturbationCovariates : List (String × List (Option String)))
    (perturbationCovariateReps : List String) : Except PErr (Obs × EncoderReturn) :=
  match perturbationCovariates with
  | [] => .error .indexError
  | (primaryGroup, primaryCovars) :: _ =>
    match checkCovariateType obs primaryCovars with
    | .error e => .error e
    | .ok (obs2, isCategorical) =>
      if perturbationCovariateReps.contains primaryGroup then .ok (obs2, .noneEnc)
      else if isCategorical then
        .ok (obs2, .bare (sortedUnique (flattenVals obs2 nObs primaryCovars)))
      else
        .ok (obs2, .withFlag (sortedUnique (primaryCovars.map (fun c =>
          match c with
          | some s => PyV.s s
          | none => PyV.vnone))) isCategorical)

/-
Condition embedding construction: PerturbationData._get_perturbation_covariates
(data.py lines 299-384), used per target condition by the training loop.
-/

/-- One-hot transform of a fitted encoder on a single value (sklearn
OneHotEncoder with the default handle_unknown="error"). -/
def oneHotTransform (fitted : List PyV) (x : PyV) : Except PErr NDArray :=
  match fitted.findIdx? (fun v => v == x) with
  | some i =>
    .ok { shape := [1, fitted.length],
          data := (List.range fitted.length).map (fun j => if j = i then 1 else 0) }
  | none => .error (.valueError "Found unknown categories during transform")

/-- jnp.asarray on a scalar pandas value: numeric values give a 0-d array,
anything else fails. -/
def toNDArrayScalar : PyV → Except PErr NDArray
  | .f x => .ok { shape := [], data := [x] }
  | .b x => .ok { shape := [], data := [if x then 1 else 0] }
  | _ => .error .typeError

/-- Elementwise multiplication of an array by a scalar pandas value
(prim_arr *= value, data.py line 335). -/
def scaleNDArray (a : NDArray) (v : PyV) : Except PErr NDArray :=
  match v with
  | .f x => .ok { a with data := a.data.map (fun q => q * x) }
  | .b x => .ok { a with data := a.data.map (fun q => q * (if x then 1 else 0)) }
  | _ => .error .typeError

def concatRowsAux (cols : Nat) (rows : Nat) (data : List ℚ) :
    List NDArray → Except PErr NDArray
  | [] => .ok { shape := [rows, cols], data := data }
  | a :: rest =>
    match a.shape with
    | [r, c] =>
      if c = cols then concatRowsAux cols (rows + r) (data ++ a.data) rest
      else .error (.valueError "concatenate shape mismatch")
    | _ => .error (.valueError "concatenate expects 2-D arrays")

/-- jnp.concatenate(arrays, axis=0) of a nonempty list of 2-D arrays with
matching column counts (the empty list raises ValueError). -/
def concatRows : List NDArray → Except PErr NDArray
  | [] => .error (.valueError "need at least one array to concatenate")
  | a :: rest =>
    match a.shape with
    | [r, c] => concatRowsAux c r a.data rest
    | _ => .error (.valueError "concatenate expects 2-D arrays")

/-- jnp.tile(a, (l, 1)) on a 2-D array: repeat its rows l times. -/
def tileRows (a : NDArray) (l : Nat) : NDArray :=
  { shape := [l * a.shape.getD 0 0, a.shape.getD 1 0],
    data := (List.replicate l a.data).flatten }

/-- Lookup of rep_dict[group][covName]: a missing group raises KeyError, a
non-dict entry raises TypeError, a missing value raises the ValueError of
data.py lines 324-327/352-355. -/
def repDictLookup (uns : Uns) (group : String) (covName : PyV) : Except PErr NDArray :=
  match lookupUns uns group with
  | none => .error .keyError
  | some .uother => .error .typeError
  | some (.udict entries) =>
    match (entries.find? (fun p => p.1 == covName)).map Prod.snd with
    | none => .error (.valueError "Representation for value not found in adata.uns.")
    | some a => .ok a

/-- Lookup of one covariate value in a condition row (a pandas Series
indexed by covariate name); a missing key raises KeyError. -/
def rowGet (row : List (String × PyV)) (k : String) : Except PErr PyV :=
  match (row.find? (fun p => p.1 == k)).map Prod.snd with
  | some v => .ok v
  | none => .error .keyError

/-- condition_data[pert_cov].append(emb): append to an existing key of the
per-group accumulator, KeyError when the key is absent. -/
def appendAt (d : List (String × List NDArray)) (k : String) (v : NDArray) :
    Except PErr (List (String × List NDArray)) :=
  if d.any (fun p => p.1 == k) then
    .ok (d.map (fun p => if p.1 == k then (p.1, p.2 ++ [v]) else p))
  else .error .keyError

def appendAll (d : List (String × List NDArray)) :
    List (String × NDArray) → Except PErr (List (String × List NDArray))
  | [] => .ok d
  | (k, v) :: rest =>
    match appendAt d k v with
    | .error e => .error e
    | .ok d2 => appendAll d2 rest

def lookupAssocOpt {β : Type} (l : List (Option String × β)) (k : Option String) :
    Option β :=
  (l.find? (fun p => p.1 == k)).map Prod.snd

/-- Linked-covariate loop of _get_perturbation_covariates (data.py lines
340-361): a None placeholder contributes a single null-value row; otherwise
the linked covariate value is resolved through the representation dict or
taken as a raw scalar, shape-normalized and appended to its group. -/
def processLinked (row : List (String × PyV)) (uns : Uns)
    (covariateReps : List (String × String)) (nullValue : ℚ)
    (emb : List (String × List NDArray)) :
    List (String × Option String) → Except PErr (List (String × List NDArray))
  | [] => .ok emb
  | (linkedGroup, linkedCov) :: rest =>
    match linkedCov with
    | none =>
      match checkShape { shape := [1, 1], data := [nullValue] } with
      | .error e => .error e
      | .ok la =>
        match appendAt emb linkedGroup la with
        | .error e => .error e
        | .ok emb2 => processLinked row uns covariateReps nullValue emb2 rest
    | some lc =>
      match rowGet row lc with
      | .error e => .error e
      | .ok covName =>
        let arrE :=
          if covariateReps.any (fun p => p.1 == linkedGroup) then
            repDictLookup uns linkedGroup covName
          else toNDArrayScalar covName
        match arrE with
        | .error e => .error e
        | .ok la0 =>
          match checkShape la0 with
          | .error e => .error e
          | .ok la =>
            match appendAt emb linkedGroup la with
            | .error e => .error e
            | .ok emb2 => processLinked row uns covariateReps nullValue emb2 rest

/-- Primary-covariate loop of _get_perturbation_covariates (data.py lines
318-361): per primary covariate, resolve the representation (rep-dict
lookup keyed by the group name, or one-hot transform), scale by the raw
value for numeric groups, shape-normalize, append, then process the linked
covariates of this primary covariate. -/
def processPrimary (row : List (String × PyV)) (uns : Uns)
    (primaryGroup : String) (covariateReps : List (String × String))
    (primaryToLinked : List (Option String × List (String × Option String)))
    (fitted : List PyV) (primaryIsCat : Bool) (nullValue : ℚ)
    (emb : List (String × List NDArray)) :
    List (Option String) → Except PErr (List (String × List NDArray))
  | [] => .ok emb
  | primaryCov :: rest =>
    match primaryCov with
    | none => .error .keyError
    | some pc =>
      match rowGet row pc with
      | .error e => .error e
      | .ok value =>
        let covName : PyV := if primaryIsCat then value else .s pc
        let primE : Except PErr NDArray :=
          if covariateReps.any (fun p => p.1 == primaryGroup) then
            repDictLookup uns primaryGroup covName
          else oneHotTransform fitted covName
        match primE with
        | .error e => .error e
        | .ok a0 =>
          let scaledE : Except PErr NDArray :=
            if primaryIsCat then .ok a0 else scaleNDArray a0 value
          match scaledE with
          | .error e => .error e
          | .ok a1 =>
            match checkShape a1 with
            | .error e => .error e
            | .ok a2 =>
              match appendAt emb primaryGroup a2 with
              | .error e => .error e
              | .ok emb2 =>
                match lookupAssocOpt primaryToLinked (some pc) with
                | none => .error .keyError
                | some linked =>
                  match processLinked row uns covariateReps nullValue emb2 linked with
                  | .error e => .error e
                  | .ok emb3 =>
                    processPrimary row uns primaryGroup covariateReps primaryToLinked
                      fitted primaryIsCat nullValue emb3 rest

/-- Concatenate and pad the per-group row lists (data.py lines 363-368). -/
def concatPadAll (maxLen : Nat) (nullValue : ℚ) :
    List (String × List NDArray) → Except PErr (List (String × NDArray))
  | [] => .ok []
  | (g, arrs) :: rest =>
    match concatRows arrs with
    | .error e => .error e
    | .ok c =>
      match concatPadAll maxLen nullValue rest with
      | .error e => .error e
      | .ok r => .ok ((g, padToMaxLength c maxLen nullValue) :: r)

/-- Sample-covariate loop of _get_perturbation_covariates (data.py lines
370-382): a represented sample covariate reads
condition_data[sample_cov].values[0], but a Series scalar has no .values
attribute (AttributeError); otherwise the raw scalar value is
shape-normalized and tiled to max_combination_length rows. -/
def processSampleCovariates (row : List (String × PyV)) (uns : Uns)
    (covariateReps : List (String × String)) (maxLen : Nat) :
    List String → Except PErr (List (String × NDArray))
  | [] => .ok []
  | sc :: rest =>
    let arrE : Except PErr NDArray :=
      if covariateReps.any (fun p => p.1 == sc) then .error .attributeError
      else
        match rowGet row sc with
        | .error e => .error e
        | .ok v => toNDArrayScalar v
    match arrE with
    | .error e => .error e
    | .ok a0 =>
      match checkShape a0 with
      | .error e => .error e
      | .ok a1 =>
        match processSampleCovariates row uns covariateReps maxLen rest with
        | .error e => .error e
        | .ok r => .ok ((sc, tileRows a1 maxLen) :: r)

/-- Embedding of PerturbationData._get_perturbation_covariates (data.py
lines 299-384). The first statement of the body unpacks
  primary_encoder, primary_is_cat = primary_encoder
which raises TypeError unless the encoder argument is the
(encoder, is_categorical) pair produced by the numeric branch of
_get_primary_covar_encoder. -/
def getPerturbationCovariatesT (row : List (String × PyV)) (uns : Uns)
    (perturbCovariates : List (String × List (Option String)))
    (sampleCovariates : List String)
    (covariateReps : List (String × String))
    (primaryToLinked : List (Option String × List (String × Option String)))
    (primaryEncoder : EncoderReturn)
    (maxCombinationLength : Nat) (nullValue : ℚ) :
    Except PErr (List (String × NDArray)) :=
  match perturbCovariates with
  | [] => .error .indexError
  | (primaryGroup, primaryCovars) :: _ =>
    match primaryEncoder with
    | .withFlag fitted primaryIsCat =>
      let emb0 := perturbCovariates.map (fun g => (g.1, ([] : List NDArray)))
      match processPrimary row uns primaryGroup covariateReps primaryToLinked fitted
          primaryIsCat nullValue emb0 primaryCovars with
      | .error e => .error e
      | .ok emb =>
        match concatPadAll maxCombinationLength nullValue emb with
        | .error e => .error e
        | .ok perturbEmb =>
          match processSampleCovariates row uns covariateReps maxCombinationLength
              sampleCovariates with
          | .error e => .error e
          | .ok sampleEmb => .ok (perturbEmb ++ sampleEmb)
    | _ => .error .typeError

/-
Training data assembler: TrainingData.load_from_adata (data.py lines
437-583) with its verification helpers.
-/

/-- Embedding of PerturbationData._verify_covariate_data (data.py lines
148-152) at the list level used inside load_from_adata (after _to_list has
normalised all group values to lists). -/
def verifyCovariateData (obs : Obs) : List (Option String) → Except PErr Unit
  | [] => .ok ()
  | none :: rest => verifyCovariateData obs rest
  | some s :: rest =>
    if (lookupCol obs s).isSome then verifyCovariateData obs rest
    else .error (.valueError "Covariate not found in adata.obs.")

def verifyPerturbationCovariatesGo (obs : Obs) :
    List (String × List (Option String)) → Except PErr Unit
  | [] => .ok ()
  | (_, covars) :: rest =>
    if covars.length = 0 then
      .error (.valueError "No covariates provided for perturbation group.")
    else
      match verifyCovariateData obs covars with
      | .error e => .error e
      | .ok _ => verifyPerturbationCovariatesGo obs rest

/-- The list-level _verify_perturbation_covariates as invoked by
load_from_adata (data.py line 475), after the _to_list preprocessing of
line 471 has made every group value a list. -/
def verifyPerturbationCovariatesL (obs : Obs)
    (data : List (String × List (Option String))) : Except PErr Unit :=
  if data.length = 0 then .error (.valueError "No perturbation covariates provided.")
  else verifyPerturbationCovariatesGo obs data

/-- Embedding of _verify_sample_covariates and _verify_split_covariates
(data.py lines 122-146): every name must be an obs column. -/
def verifyCovariateNames (obs : Obs) : List String → Except PErr Unit
  | [] => .ok ()
  | c :: rest =>
    match verifyCovariateData obs [some c] with
    | .error e => .error e
    | .ok _ => verifyCovariateNames obs rest

/-- Embedding of PerturbationData._verify_linked_covars (data.py lines
168-174): all group lengths must coincide (the Python len(set(lengths))
!= 1 check, which also fails for an empty mapping). -/
def verifyLinkedCovars (pcovs : List (String × List (Option String))) :
    Except PErr Unit :=
  if (distinctFirst (pcovs.map (fun g => g.2.length))).length ≠ 1 then
    .error (.valueError "Length of perturbation covariate groups must match.")
  else .ok ()

/-- Embedding of PerturbationData._get_linked_covariates (data.py lines
154-166): for each primary covariate (positionally), the mapping from each
non-primary group name to that group's covariate at the same position. -/
def getLinkedCovariates (pcovs : List (String × List (Option String))) :
    Except PErr (List (Option String × List (String × Option String))) :=
  match verifyLinkedCovars pcovs with
  | .error e => .error e
  | .ok _ =>
    match pcovs with
    | [] => .error .indexError
    | (_, primaryCovars) :: restGroups =>
      .ok (primaryCovars.enum.map (fun ie =>
        (ie.2, restGroups.map (fun g => (g.1, g.2.getD ie.1 none)))))

/-- Embedding of PerturbationData._verify_covariate_reps (data.py lines
176-188). -/
def verifyCovariateReps (uns : Uns) (reps : List (String × String))
    (covariateNames : List String) : Except PErr Unit :=
  match reps with
  | [] => .ok ()
  | (key, value) :: rest =>
    if !(covariateNames.contains key) then
      .error (.valueError "Key not found in covariates.")
    else
      match lookupUns uns value with
      | none => .error (.valueError "Representation not found in adata.uns.")
      | some .uother =>
        .error (.valueError "Covariate representation in adata.uns should be of type dict.")
      | some (.udict _) => verifyCovariateReps uns rest covariateNames

/-- Python dict union a | b on insertion-ordered association lists: keys of
a in order (with values overridden by b), then the new keys of b. -/
def pyDictUnionL {β : Type} (a b : List (String × β)) : List (String × β) :=
  (a.map (fun p =>
    match (b.find? (fun q => q.1 == p.1)).map Prod.snd with
    | some v => (p.1, v)
    | none => p)) ++
  b.filter (fun q => !(a.any (fun p => p.1 == q.1)))

/-- The rows of adata.obs restricted to the given columns, one row per
cell. -/
def obsRowsOf (obs : Obs) (keys : List String) (nObs : Nat) : List (List PyV) :=
  (List.range nObs).map (fun i => keys.map (fun k => getVal obs k i))

/-- Boolean cell mask: (adata.obs[keys] == values).all(axis=1) (an empty
key list matches every cell, as the pandas all(axis=1) of an empty frame
does; zip truncates as in the source's strict=False). -/
def matchSel (obs : Obs) (nObs : Nat) (keys : List String) (vals : List PyV) :
    List Bool :=
  (List.range nObs).map (fun i =>
    (keys.zip vals).all (fun kv => getVal obs kv.1 i == kv.2))

/-- mask[sel] = v on an integer mask. -/
def setMask (mask : List Int) (sel : List Bool) (v : Int) : List Int :=
  mask.zipWith (fun old s => if s then v else old) sel

/-- The sample-rep argument of the training factory: "X" or an obsm key
(the dict form resolves through the attribute store and is not needed by
the claims settled here). -/
inductive SampleRep
  | useX
  | obsmKey (k : String)
deriving DecidableEq, Repr

/-- Embedding of PerturbationData._get_cell_data (data.py lines 64-83). -/
def getCellData (ad : AData) : SampleRep → Except PErr (List (List ℚ))
  | .useX => .ok ad.X
  | .obsmKey k =>
    match (ad.obsm.find? (fun p => p.1 == k)).map Prod.snd with
    | some v => .ok v
    | none =>
      .error (.valueError "sample_rep should be either X, a key in adata.obsm or a dictionary.")

/-- The TrainingData container assembled by load_from_adata. The stacked
3-D condition arrays are kept as the per-target lists of equal-shaped 2-D
embeddings from which jnp.array builds them (data.py lines 570-571). -/
structure TrainingContainer where
  cellData : List (List ℚ)
  splitCovariatesMask : List Int
  splitIdxToCovariates : List (Nat × List PyV)
  perturbationCovariatesMask : List Int
  perturbationIdxToCovariates : List (Nat × List PyV)
  conditionData : List (String × List NDArray)
  controlToPerturbation : List (Nat × List Nat)
  maxCombinationLength : Nat
  nullValue : ℚ
deriving DecidableEq, Repr

/-- Loop state of the assembler loop of load_from_adata (data.py lines
503-568). -/
structure TrainLoopAcc where
  srcCounter : Nat
  tgtCounter : Nat
  splitMask : List Int
  splitIdxTo : List (Nat × List PyV)
  pertMask : List Int
  pertIdxTo : List (Nat × List PyV)
  condData : List (String × List NDArray)
  ctrlToPert : List (Nat × List Nat)
deriving DecidableEq, Repr

/-- Static context threaded through the assembler loop. -/
structure TrainCtx where
  obs : Obs
  nObs : Nat
  uns : Uns
  perturbCovariates : List (String × List (Option String))
  sampleCovariates : List String
  covariateReps : List (String × String)
  primaryToLinked : List (Option String × List (String × Option String))
  primaryEncoder : EncoderReturn
  maxCombinationLength : Nat
  nullValue : ℚ
  perturbCovarKeys : List String

/-- Inner target loop of load_from_adata (data.py lines 535-565): per
distinct condition row, build the cell mask restricted to the current
split, skip empty masks, otherwise record the target index in the mask,
the label tuple, the condition embeddings and the reachable-target list. -/
def trainTgtLoop (ctx : TrainCtx) (splitSel : List Bool) :
    List (List PyV) → TrainLoopAcc → List Nat →
    Except PErr (TrainLoopAcc × List Nat)
  | [], acc, cds => .ok (acc, cds)
  | tgtVals :: rest, acc, cds =>
    let sel := (List.range ctx.nObs).map (fun i =>
      (ctx.perturbCovarKeys.zip tgtVals).all (fun kv => getVal ctx.obs kv.1 i == kv.2) &&
      splitSel.getD i false)
    if sel.countP (fun b => b) = 0 then trainTgtLoop ctx splitSel rest acc cds
    else
      match getPerturbationCovariatesT (ctx.perturbCovarKeys.zip tgtVals) ctx.uns
          ctx.perturbCovariates ctx.sampleCovariates ctx.covariateReps
          ctx.primaryToLinked ctx.primaryEncoder ctx.maxCombinationLength
          ctx.nullValue with
      | .error e => .error e
      | .ok embedding =>
        match appendAll acc.condData embedding with
        | .error e => .error e
        | .ok condData2 =>
          let acc2 : TrainLoopAcc :=
            { acc with
              pertMask := setMask acc.pertMask sel (Int.ofNat acc.tgtCounter),
              pertIdxTo := acc.pertIdxTo ++ [(acc.tgtCounter, tgtVals)],
              condData := condData2,
              tgtCounter := acc.tgtCounter + 1 }
          trainTgtLoop ctx splitSel rest acc2 (cds ++ [acc.tgtCounter])

/-- Outer split loop of load_from_adata (data.py lines 524-568): assign the
split mask and label under src_counter, increment it, run the target loop,
then record control_to_perturbation under the incremented src_counter and
increment it again (the source increments src_counter twice per split
combination). -/
def trainSrcLoop (ctx : TrainCtx) (splitCovariates : List String)
    (tgtCombs : List (List PyV)) :
    List (List PyV) → TrainLoopAcc → Except PErr TrainLoopAcc
  | [], acc => .ok acc
  | comb :: rest, acc =>
    let splitSel := matchSel ctx.obs ctx.nObs splitCovariates comb
    let acc1 : TrainLoopAcc :=
      { acc with
        splitMask := setMask acc.splitMask splitSel (Int.ofNat acc.srcCounter),
        splitIdxTo := acc.splitIdxTo ++ [(acc.srcCounter, comb)],
        srcCounter := acc.srcCounter + 1 }
    match trainTgtLoop ctx splitSel tgtCombs acc1 [] with
    | .error e => .error e
    | .ok (acc2, cds) =>
      trainSrcLoop ctx splitCovariates tgtCombs rest
        { acc2 with
          ctrlToPert := acc2.ctrlToPert ++ [(acc2.srcCounter, cds)],
          srcCounter := acc2.srcCounter + 1 }

/-- Embedding of TrainingData.load_from_adata (data.py lines 437-583),
following the source statement by statement: control verification (with
in-place boolean coercion), covariate verifications, linked-covariate
alignment, representation checks, maximum combination length, primary
encoder fit (with in-place float/category coercion of the primary
covariate columns), then the split-by-target enumeration loop. The
_to_list normalisation of the cfp utils module (not under src) is
reflected by taking the covariate groups as lists. Returns the container
together with the final state of the caller's adata.obs. -/
def trainingLoadFromAdata (ad : AData) (sampleRep : SampleRep) (controlKey : String)
    (perturbationCovariates : List (String × List (Option String)))
    (perturbationCovariateReps : List (String × String))
    (sampleCovariates : List String)
    (sampleCovariateReps : List (String × String))
    (splitCovariates : List String)
    (maxCombinationLength : Option Nat) (nullValue : ℚ) :
    Except PErr (TrainingContainer × Obs) :=
  match verifyControlDataL ad.obs (.str controlKey) with
  | .error e => .error e
  | .ok obs1 =>
    match verifyPerturbationCovariatesL obs1 perturbationCovariates with
    | .error e => .error e
    | .ok _ =>
      match getLinkedCovariates perturbationCovariates with
      | .error e => .error e
      | .ok primaryToLinked =>
        match verifyCovariateNames obs1 sampleCovariates with
        | .error e => .error e
        | .ok _ =>
          let sampleCovGroups := sampleCovariates.map (fun c => (c, [some c]))
          let covariateGroups := pyDictUnionL perturbationCovariates sampleCovGroups
          let covariateReps := pyDictUnionL perturbationCovariateReps sampleCovariateReps
          match verifyCovariateReps ad.uns covariateReps (covariateGroups.map (fun g => g.1)) with
          | .error e => .error e
          | .ok _ =>
            match verifyCovariateNames obs1 splitCovariates with
            | .error e => .error e
            | .ok _ =>
              match getMaxCombinationLength perturbationCovariates maxCombinationLength with
              | .error e => .error e
              | .ok (maxLen, _warned) =>
                match getPrimaryCovarEncoder obs1 ad.nObs perturbationCovariates
                    (perturbationCovariateReps.map (fun p => p.1)) with
                | .error e => .error e
                | .ok (obs2, primaryEncoder) =>
                  let splitCovCombs :=
                    if 0 < splitCovariates.length then
                      distinctFirst (obsRowsOf obs2 splitCovariates ad.nObs)
                    else [[]]
                  let perturbCovarKeys :=
                    ((perturbationCovariates.map (fun g => g.2)).flatten ++
                      sampleCovariates.map some).filterMap id
                  let perturbCovarDf := distinctFirst (obsRowsOf obs2 perturbCovarKeys ad.nObs)
                  let ctx : TrainCtx :=
                    { obs := obs2, nObs := ad.nObs, uns := ad.uns,
                      perturbCovariates := perturbationCovariates,
                      sampleCovariates := sampleCovariates,
                      covariateReps := covariateReps,
                      primaryToLinked := primaryToLinked,
                      primaryEncoder := primaryEncoder,
                      maxCombinationLength := maxLen,
                      nullValue := nullValue,
                      perturbCovarKeys := perturbCovarKeys }
                  let acc0 : TrainLoopAcc :=
                    { srcCounter := 0, tgtCounter := 0,
                      splitMask := List.replicate ad.nObs (-1 : Int),
                      splitIdxTo := [],
                      pertMask := List.replicate ad.nObs (-1 : Int),
                      pertIdxTo := [],
                      condData := covariateGroups.map (fun g => (g.1, ([] : List NDArray))),
                      ctrlToPert := [] }
                  match trainSrcLoop ctx splitCovariates perturbCovarDf splitCovCombs acc0 with
                  | .error e => .error e
                  | .ok acc =>
                    match getCellData { ad with obs := obs2 } sampleRep with
                    | .error e => .error e
                    | .ok cellData =>
                      .ok ({ cellData := cellData,
                             splitCovariatesMask := acc.splitMask,
                             splitIdxToCovariates := acc.splitIdxTo,
                             perturbationCovariatesMask := acc.pertMask,
                             perturbationIdxToCovariates := acc.pertIdxTo,
                             conditionData := acc.condData,
                             controlToPerturbation := acc.ctrlToPert,
                             maxCombinationLength := maxLen,
                             nullValue := nullValue }, obs2)

/-
Validation data assembler: ValidationData.load_from_adata (data.py lines
637-808). The ValidationData-specific helpers it calls
(_verify_obs_perturbation_covariates, _verify_uns_perturbation_covariates,
_get_sample_data, the validation _get_perturbation_covariates and the
two-argument _get_idx_to_covariate) are repository code that is not under
src; they are modelled from the spec where marked below.
-/

/-- Modelled from the spec: the synthetic always-true helper column name
(the CONTROL_HELPER constant of cfp._constants is not under src; the exact
string is immaterial to every claim settled here). -/
def CONTROL_HELPER : String := "control_helper"

/-- Injection of the synthetic always-true categorical column (data.py
lines 671-674): adata.obs[CONTROL_HELPER] = True, coerced to category. -/
def injectHelper (ad : AData) : AData :=
  { ad with
    obs := setCol ad.obs CONTROL_HELPER
      { dtype := .categoryD, vals := List.replicate ad.nObs (.b true) } }

/-- Modelled from the spec: _verify_obs_perturbation_covariates and
_verify_uns_perturbation_covariates (not under src) verify that every
named covariate is an obs column. -/
def verifyValidationCovariates (obs : Obs) (covs : List String) : Except PErr Unit :=
  verifyCovariateNames obs covs

/-- Modelled from the spec: _get_sample_data (not under src) extracts the
raw per-population cell sample, i.e. the masked rows of the cell-feature
matrix. -/
def getSampleRows (ad : AData) (sel : List Bool) : List (List ℚ) :=
  ((ad.X.zip sel).filter (fun p => p.2)).map (fun p => p.1)

/-- Categories of a pandas categorical column: sorted distinct values. -/
def categoriesOf (c : Col) : List PyV :=
  sortedUnique c.vals

/-- itertools.product over the per-covariate category lists, in product
order. -/
def listProduct : List (List PyV) → List (List PyV)
  | [] => [[]]
  | l :: ls => (l.map (fun x => (listProduct ls).map (fun r => x :: r))).flatten

/-- Coercion of the split covariate columns to categorical dtype in the
caller's obs (data.py lines 704-708); a missing column raises ValueError. -/
def coerceSplitCols (obs : Obs) : List String → Except PErr Obs
  | [] => .ok obs
  | c :: rest =>
    match lookupCol obs c with
    | none => .error (.valueError "Split covariate not found in adata.obs.")
    | some col =>
      if col.dtype = .categoryD then coerceSplitCols obs rest
      else coerceSplitCols (setCol obs c { dtype := .categoryD, vals := col.vals }) rest

/-- jnp.expand_dims(emb, 0): the extra leading singleton dimension. -/
def expandDims0 (a : NDArray) : NDArray :=
  { shape := 1 :: a.shape, data := a.data }

/-- Helper instances so that equalities over the nested validation
containers stay kernel-decidable. -/
instance instDecEqCondInner : DecidableEq (List (Nat × List (String × NDArray))) :=
  inferInstance

instance instDecEqCondNested :
    DecidableEq (List (Nat × List (Nat × List (String × NDArray)))) :=
  inferInstance

instance instDecEqCondNestedOpt :
    DecidableEq (Option (List (Nat × List (Nat × List (String × NDArray))))) :=
  inferInstance

/-- The ValidationData container: per-source raw control samples,
per-source-per-target raw target samples, and the nested condition
embeddings (None when no perturbation covariates are configured). -/
structure ValContainer where
  srcData : List (Nat × List (List ℚ))
  tgtData : List (Nat × List (Nat × List (List ℚ)))
  condData : Option (List (Nat × List (Nat × List (String × NDArray))))
  maxCombinationLength : Nat
  nullValue : Option ℚ
  nullToken : ℚ
deriving DecidableEq, Repr

/-- Inner target loop of ValidationData.load_from_adata (data.py lines
763-798): per observed target combination, the mask is restricted to
non-control cells of the current split; nonempty masks record the raw
sample and (indices keyed as in lines 791-796, via the spec-modelled
embedding function, with the extra leading singleton dimension of line
795) the condition embeddings. -/
def valTgtLoop (ad : AData) (obs : Obs) (tgtKeys : List String)
    (controlMask splitSel : List Bool)
    (embedFn : List Bool → Except PErr (List (String × NDArray))) :
    List (List PyV) → Nat → List (Nat × List (List ℚ)) →
    List (Nat × List (String × NDArray)) →
    Except PErr (List (Nat × List (List ℚ)) × List (Nat × List (String × NDArray)))
  | [], _, tgts, conds => .ok (tgts, conds)
  | comb :: rest, tgtCounter, tgts, conds =>
    let sel := (List.range ad.nObs).map (fun i =>
      (tgtKeys.zip comb).all (fun kv => getVal obs kv.1 i == kv.2) &&
      !(controlMask.getD i false) && splitSel.getD i false)
    if sel.countP (fun b => b) = 0 then
      valTgtLoop ad obs tgtKeys controlMask splitSel embedFn rest tgtCounter tgts conds
    else
      match embedFn sel with
      | .error e => .error e
      | .ok emb =>
        valTgtLoop ad obs tgtKeys controlMask splitSel embedFn rest (tgtCounter + 1)
          (tgts ++ [(tgtCounter, getSampleRows ad sel)])
          (conds ++ [(tgtCounter, emb.map (fun p => (p.1, expandDims0 p.2)))])

/-- Outer source loop of ValidationData.load_from_adata (data.py lines
750-799): source combinations range over the full category product; a
combination whose control mask is empty is skipped without consuming an
index; recording a source population first assigns
condition_data[src_counter] = {}, which raises TypeError when
condition_data is None (no perturbation covariates, lines 735-742). -/
def valSrcLoop (ad : AData) (obs : Obs) (splits : List String)
    (tgtKeys : List String) (tgtCombs : List (List PyV))
    (controlMask : List Bool) (condActive : Bool)
    (embedFn : List Bool → Except PErr (List (String × NDArray))) :
    List (List PyV) → Nat →
    List (Nat × List (List ℚ)) →
    List (Nat × List (Nat × List (List ℚ))) →
    List (Nat × List (Nat × List (String × NDArray))) →
    Except PErr (List (Nat × List (List ℚ)) ×
      List (Nat × List (Nat × List (List ℚ))) ×
      List (Nat × List (Nat × List (String × NDArray))))
  | [], _, srcAcc, tgtAcc, condAcc => .ok (srcAcc, tgtAcc, condAcc)
  | comb :: rest, srcCounter, srcAcc, tgtAcc, condAcc =>
    let splitSel := matchSel obs ad.nObs splits comb
    let sel := splitSel.zipWith (fun a b => a && b) controlMask
    if sel.countP (fun b => b) = 0 then
      valSrcLoop ad obs splits tgtKeys tgtCombs controlMask condActive embedFn
        rest srcCounter srcAcc tgtAcc condAcc
    else if !condActive then .error .typeError
    else
      match valTgtLoop ad obs tgtKeys controlMask splitSel embedFn tgtCombs 0 [] [] with
      | .error e => .error e
      | .ok (tgts, conds) =>
        valSrcLoop ad obs splits tgtKeys tgtCombs controlMask condActive embedFn
          rest (srcCounter + 1)
          (srcAcc ++ [(srcCounter, getSampleRows ad sel)])
          (tgtAcc ++ [(srcCounter, tgts)])
          (condAcc ++ [(srcCounter, conds)])

/-- Embedding of ValidationData.load_from_adata (data.py lines 637-808).
Empty split covariates inject the synthetic always-true categorical helper
column into the caller's obs; _verify_control_data is then called with the
(column, value) control tuple as the obs label (line 677); the observed
combination lengths are checked against the training maximum (lines
685-702); split columns are coerced to categorical (lines 704-708); source
populations range over the category product, targets over observed
combinations. The condition-embedding construction per target (the
validation _get_perturbation_covariates override, not under src) is the
spec-modelled embedFn parameter. Returns the container and the final obs. -/
def validationLoadFromAdata (ad : AData) (controlData : String × PyV)
    (splitCovariates : List String)
    (obsPerturbationCovariates : List (List String))
    (unsPerturbationCovariates : List (String × List String))
    (maxCombinationLength : Nat) (nullValue : Option ℚ) (nullToken : ℚ)
    (embedFn : List Bool → Except PErr (List (String × NDArray))) :
    Except PErr (ValContainer × Obs) :=
  let inj := splitCovariates.length = 0
  let ad1 := if inj then injectHelper ad else ad
  let splits := if inj then [CONTROL_HELPER] else splitCovariates
  match verifyControlDataL ad1.obs (.pair controlData.1 controlData.2) with
  | .error e => .error e
  | .ok obs1 =>
    match verifyValidationCovariates obs1 obsPerturbationCovariates.flatten with
    | .error e => .error e
    | .ok _ =>
      match verifyValidationCovariates obs1
          (unsPerturbationCovariates.map (fun g => g.2)).flatten with
      | .error e => .error e
      | .ok _ =>
        let obsCombinationLength :=
          (obsPerturbationCovariates.map (fun g => g.length)).foldl Nat.max 0
        let unsCombinationLength :=
          (unsPerturbationCovariates.map (fun g => g.2.length)).foldl Nat.max 0
        if maxCombinationLength < Nat.max obsCombinationLength unsCombinationLength then
          .error (.valueError "Observed combination length of the validation data is larger than the provided maximum combination length of the training data.")
        else
          match coerceSplitCols obs1 splits with
          | .error e => .error e
          | .ok obs2 =>
            let srcDist := splits.map (fun c =>
              match lookupCol obs2 c with
              | some col => categoriesOf col
              | none => [])
            let tgtKeys := distinctFirst
              (obsPerturbationCovariates.flatten ++
                (unsPerturbationCovariates.map (fun g => g.2)).flatten)
            let tgtCombs := distinctFirst (obsRowsOf obs2 tgtKeys ad.nObs)
            let controlMask := (List.range ad.nObs).map (fun i =>
              getVal obs2 controlData.1 i == controlData.2)
            let condActive :=
              !(obsPerturbationCovariates.length = 0 &&
                unsPerturbationCovariates.length = 0)
            match valSrcLoop ad1 obs2 splits tgtKeys tgtCombs controlMask condActive
                embedFn (listProduct srcDist) 0 [] [] [] with
            | .error e => .error e
            | .ok (srcData, tgtData, condData) =>
              .ok ({ srcData := srcData,
                     tgtData := tgtData,
                     condData := if condActive then some condData else none,
                     maxCombinationLength := maxCombinationLength,
                     nullValue := nullValue,
                     nullToken := nullToken }, obs2)

/-
Concrete inputs used by the closed theorems below.
-/

/-- Scenario dataset for the training assembler: one boolean control
column (cell 0 is control), one numeric primary perturbation covariate
column whose non-control cells carry 3 distinct values and whose control
cells carry a distinct fourth value. -/
def adC2 : AData :=
  { nObs := 4,
    obs := [("control", { dtype := .booleanD, vals := [.b true, .b false, .b false, .b false] }),
            ("drug", { dtype := .float64, vals := [.f 0, .f 1, .f 2, .f 3] })],
    X := [[10], [11], [12], [13]],
    obsm := [],
    uns := [] }

/-- Dataset whose control column is a non-boolean (object-dtype) column of
booleans and whose covariate column is an object-dtype numeric column, so
that both are coerced in place by the training factory. -/
def adC6 : AData :=
  { nObs := 2,
    obs := [("control", { dtype := .objectD, vals := [.b true, .b false] }),
            ("drug", { dtype := .objectD, vals := [.f 0, .f 1] })],
    X := [[1], [2]],
    obsm := [],
    uns := [] }

/-- Dataset with a single categorical primary perturbation covariate
column and no declared representation. -/
def obsC4 : Obs := [("drug", { dtype := .objectD, vals := [.s "A", .s "B"] })]

/-- A validation dataset whose log-iteration policy is the keep-everything
sentinel -1 while its end-of-training policy asks for 2 of 5 conditions. -/
def valDataC3 : ValDataCB :=
  { nConditionsOnLogIteration := -1, nConditionsOnTrainEnd := 2, numConditions := 5 }

/-- Discriminator for the Python return shape of the primary encoder fit:
true exactly for the (encoder, is_categorical) pair. -/
def encoderReturnIsPair : EncoderReturn → Bool
  | .withFlag _ _ => true
  | _ => false

/-
Supporting lemmas.
-/

/-- A successful column lookup makes the existence test of setCol true. -/
theorem lookupCol_any (l : Obs) (k : String) (c : Col)
    (h : lookupCol l k = some c) : l.any (fun q => q.1 == k) = true := by
  induction l with
  | nil => simp [lookupCol] at h
  | cons p rest ih =>
    by_cases hp : (p.1 == k) = true
    · simp [hp]
    · simp only [lookupCol, hp, if_false] at h
      simp only [List.any_cons, Bool.or_eq_true]
      exact Or.inr (ih h)

/-- Replacing the entries with key k makes the lookup at k return the new
column, provided the key was present. -/
theorem lookupCol_map_set (l : Obs) (k : String) (c c2 : Col)
    (h : lookupCol l k = some c) :
    lookupCol (l.map (fun q => if q.1 == k then (k, c2) else q)) k = some c2 := by
  induction l with
  | nil => simp [lookupCol] at h
  | cons p rest ih =>
    by_cases hp : (p.1 == k) = true
    · simp [lookupCol, hp]
    · simp only [lookupCol, hp, if_false] at h
      simp [lookupCol, hp]
      simpa using ih h

/-- setCol at a present key behaves as the in-place map replacement. -/
theorem lookupCol_setCol (l : Obs) (k : String) (c c2 : Col)
    (h : lookupCol l k = some c) :
    lookupCol (setCol l k c2) k = some c2 := by
  unfold setCol
  rw [if_pos (lookupCol_any l k c h)]
  exact lookupCol_map_set l k c c2 h

/-- astype("boolean") always produces a boolean-dtype column. -/
theorem astypeBoolean_dtype (c c2 : Col) (h : astypeBoolean c = some c2) :
    c2.dtype = .booleanD := by
  unfold astypeBoolean at h
  cases hm : c.vals.mapM coerceBoolVal with
  | none => rw [hm] at h; simp at h
  | some vs =>
    rw [hm] at h
    simp only [Option.some.injEq] at h
    rw [← h]

/-
Claim theorems.
-/

/-- C7: _check_shape maps a scalar, a 1-D vector, or an (F, 1) column to a
(1, F) row, returns a (1, F) input unchanged, raises ValueError for any
other rank-2 shape and for rank above 2, and an (F,) vector and the (1, F)
row holding the same values normalize to the identical (1, F) output. -/
theorem checkShape_spec (d : List ℚ) (n a b : Nat) (s : List Nat) :
    checkShape { shape := [], data := d } = .ok { shape := [1, 1], data := d } ∧
    checkShape { shape := [n], data := d } = .ok { shape := [1, n], data := d } ∧
    checkShape { shape := [n, 1], data := d } = .ok { shape := [1, n], data := d } ∧
    checkShape { shape := [1, n], data := d } = .ok { shape := [1, n], data := d } ∧
    checkShape { shape := [n], data := d } = checkShape { shape := [1, n], data := d } ∧
    (a ≠ 1 → b ≠ 1 → checkShape { shape := [a, b], data := d } =
      .error (.valueError "Condition representation has an unexpected shape. Should be (1, n_features) or (n_features, ).")) ∧
    (2 < s.length → checkShape { shape := s, data := d } =
      .error (.valueError "Condition representation has too many dimensions. Should be 1 or 2.")) := by
  refine ⟨rfl, rfl, ?_, ?_, ?_, ?_, ?_⟩
  · by_cases hn : n = 1
    · subst hn; rfl
    · simp [checkShape, hn]
  · simp [checkShape]
  · by_cases hn : n = 1
    · subst hn; rfl
    · simp [checkShape, hn]
  · intro ha hb
    simp [checkShape, ha, hb]
  · intro hs
    rcases s with _ | ⟨x, _ | ⟨y, _ | ⟨z, t⟩⟩⟩
    · simp at hs
    · simp at hs
    · simp at hs
    · rfl

/-- Witness for checkShape_spec: the (2, 2) input and a rank-3 input raise
the two ValueErrors. -/
theorem checkShape_spec_witness :
    checkShape { shape := [2, 2], data := [1, 2, 3, 4] } =
      .error (.valueError "Condition representation has an unexpected shape. Should be (1, n_features) or (n_features, ).") ∧
    checkShape { shape := [2, 2, 2], data := [] } =
      .error (.valueError "Condition representation has too many dimensions. Should be 1 or 2.") :=
  ⟨(checkShape_spec [1, 2, 3, 4] 0 2 2 []).2.2.2.2.2.1 (by decide) (by decide),
   (checkShape_spec [] 0 0 0 [2, 2, 2]).2.2.2.2.2.2 (by decide)⟩

/-- C8: _pad_to_max_length appends null-value rows until the row count
equals L, is a no-op for arrays whose row count is already at or above L,
and is idempotent on arrays with at most L rows. -/
theorem padToMaxLength_spec (arr : NDArray) (L : Nat) (v : ℚ) :
    (L ≤ arr.shape.getD 0 0 → padToMaxLength arr L v = arr) ∧
    (arr.shape.getD 0 0 ≤ L →
      (padToMaxLength arr L v).shape.getD 0 0 = L ∧
      (padToMaxLength arr L v).data =
        arr.data ++ List.replicate ((L - arr.shape.getD 0 0) * arr.shape.getD 1 0) v ∧
      padToMaxLength (padToMaxLength arr L v) L v = padToMaxLength arr L v) := by
  constructor
  · intro hL
    simp only [padToMaxLength]
    rw [if_neg (by omega)]
  · intro hL
    by_cases hlt : arr.shape.getD 0 0 < L
    · have h1 : padToMaxLength arr L v =
          { shape := [L, arr.shape.getD 1 0],
            data := arr.data ++
              List.replicate ((L - arr.shape.getD 0 0) * arr.shape.getD 1 0) v } := by
        simp only [padToMaxLength]
        rw [if_pos hlt]
      rw [h1]
      refine ⟨rfl, rfl, ?_⟩
      simp only [padToMaxLength]
      rw [if_neg (by simp)]
    · have h1 : padToMaxLength arr L v = arr := by
        simp only [padToMaxLength]
        rw [if_neg hlt]
      have h0 : arr.shape.getD 0 0 = L := by omega
      rw [h1]
      refine ⟨h0, ?_, h1⟩
      have hz : L - arr.shape.getD 0 0 = 0 := by omega
      rw [hz]
      simp

/-- Witness for padToMaxLength_spec: a (1, 2) array padded to 3 rows gains
two null rows, and padding twice equals padding once. -/
theorem padToMaxLength_spec_witness :
    (padToMaxLength { shape := [1, 2], data := [3, 4] } 3 0).shape.getD 0 0 = 3 ∧
    (padToMaxLength { shape := [1, 2], data := [3, 4] } 3 0).data =
      ([3, 4] : List ℚ) ++ List.replicate ((3 - 1) * 2) (0 : ℚ) ∧
    padToMaxLength (padToMaxLength { shape := [1, 2], data := [3, 4] } 3 0) 3 0 =
      padToMaxLength { shape := [1, 2], data := [3, 4] } 3 0 :=
  (padToMaxLength_spec { shape := [1, 2], data := [3, 4] } 3 0).2 (by decide)

/-- C9: when the caller-provided max_combination_length is strictly below
the observed maximum group length, _get_max_combination_length does not
fail: it warns (the Bool) and returns the observed maximum, which
load_from_adata then stores in the container (shown on a concrete run with
max_combination_length 0 against an observed maximum of 1). -/
theorem maxCombinationLength_override
    (pcs : List (String × List (Option String))) (m : Nat)
    (h1 : pcs ≠ []) (h2 : m < obsMaxCombinationLength pcs) :
    getMaxCombinationLength pcs (some m) = .ok (obsMaxCombinationLength pcs, true) ∧
    (trainingLoadFromAdata adC2 .useX "control" [("drug", [some "drug"])] [] [] [] []
        (some 0) 0).map (fun out => out.1.maxCombinationLength) = .ok 1 := by
  constructor
  · cases pcs with
    | nil => exact absurd rfl h1
    | cons p rest => simp [getMaxCombinationLength, h2]
  · decide

/-- Witness for maxCombinationLength_override at a concrete group list. -/
theorem maxCombinationLength_override_witness :
    getMaxCombinationLength [("g", [some "a", some "b"])] (some 1) =
      .ok (obsMaxCombinationLength [("g", [some "a", some "b"])], true) ∧
    (trainingLoadFromAdata adC2 .useX "control" [("drug", [some "drug"])] [] [] [] []
        (some 0) 0).map (fun out => out.1.maxCombinationLength) = .ok 1 :=
  maxCombinationLength_override [("g", [some "a", some "b"])] 1 (by decide) (by decide)

/-- C10: giving _verify_perturbation_covariates a mapping whose first
group value is not a tuple or list makes the error branch evaluate an
f-string referencing the undefined name covar, so the call raises
NameError, not the documented ValueError. -/
theorem verifyPerturbationCovariates_undefined_name (obsCols : List String)
    (k : String) (n : Int) (rest : List (PyObj × PyObj)) :
    verifyPerturbationCovariatesDyn obsCols (.pyDict ((.pyStr k, .pyInt n) :: rest)) =
      .error (.nameError "name covar is not defined") := by
  simp [verifyPerturbationCovariatesDyn, verifyPerturbationCovariatesDynGo,
    pyObjIsStr, pyObjIsTupleOrList]

/-- C1: CallbackRunner.__init__ never raises: the guard
len(comps) == 0 & len(logs) != 0 parses as
len(comps) == (0 & len(logs)) != 0, whose second chained comparison
0 != 0 is always false, so construction succeeds for every callback list,
including one logging callback with zero computation callbacks. -/
theorem callbackRunnerInit_never_raises (callbacks : List CBKind) :
    callbackRunnerInit callbacks =
      .ok (callbacks.filter (fun c => c == .comp),
           callbacks.filter (fun c => c == .logg)) := by
  simp [callbackRunnerInit, Nat.zero_and]

/-- C3: CallbackRunner.on_train_end samples the validation data with the
on_log_iteration stage (callbacks.py line 363), not the on_train_end
stage: on a dataset whose log-iteration policy is the keep-all sentinel -1
and whose end-of-training policy is 2 of 5 conditions, on_train_end hands
the computation callbacks the full dataset (all 5 conditions), the
end-of-training policy value 2 is never consulted, and sampling with the
on_train_end stage would behave differently. -/
theorem onTrainEnd_uses_log_iteration_policy :
    runnerOnTrainEnd [fun vds => vds.map (fun p => (p.1,
        match p.2 with
        | .full v => (v.numConditions : ℚ)
        | .emptyDraw => 0))]
      [("ds", valDataC3)] = .ok [("ds", 5)] ∧
    nConditionsToSample .onTrainEnd valDataC3 = 2 ∧
    sampleValidationData .onTrainEnd [("ds", valDataC3)] ≠
      sampleValidationData .onLogIteration [("ds", valDataC3)] := by
  exact ⟨by decide, by decide, by decide⟩

/-- C2: on a dataset with one boolean control column, no split covariates
and one numeric primary perturbation covariate column carrying 3 distinct
non-control values (and a distinct control value), the training assembler
produces exactly one split population with index 0 in the split mask, but
records its reachable-target array in control_to_perturbation under key 1
(src_counter is incremented both after the split-mask assignment and after
the recording), and the array has length 4 because the control cells' own
condition is enumerated as a target population as well. -/
theorem trainingLoad_scenario_bookkeeping :
    (trainingLoadFromAdata adC2 .useX "control" [("drug", [some "drug"])] [] [] [] []
        none 0).map (fun out => out.1.controlToPerturbation) =
      .ok [(1, [0, 1, 2, 3])] ∧
    (trainingLoadFromAdata adC2 .useX "control" [("drug", [some "drug"])] [] [] [] []
        none 0).map (fun out => out.1.splitIdxToCovariates) = .ok [(0, [])] ∧
    (trainingLoadFromAdata adC2 .useX "control" [("drug", [some "drug"])] [] [] [] []
        none 0).map (fun out => out.1.splitCovariatesMask) = .ok [0, 0, 0, 0] ∧
    (trainingLoadFromAdata adC2 .useX "control" [("drug", [some "drug"])] [] [] [] []
        none 0).map (fun out => out.1.perturbationCovariatesMask) = .ok [0, 1, 2, 3] := by
  exact ⟨by decide, by decide, by decide, by decide⟩

/-- C4: fitting the primary encoder for a categorical primary group with
no declared representation returns the bare fitted encoder (the list of
sorted distinct column values), not the (encoder, is_categorical) pair;
the discriminator in the conclusion is false. -/
theorem primaryEncoder_categorical_returns_bare :
    (getPrimaryCovarEncoder obsC4 2 [("drug", [some "drug"])] []).map
      (fun p => (p.1, p.2, encoderReturnIsPair p.2)) =
    .ok ([("drug", { dtype := .categoryD, vals := [.s "A", .s "B"] })],
      .bare [.s "A", .s "B"], false) := by
  decide

/-- C6 counterexample: the training factory returns successfully on a
dataset whose control column has object dtype, and the caller's per-cell
metadata observed after the call differs from the metadata before the
call: the control column has been coerced to boolean dtype and the
covariate column to float64 in place. -/
theorem trainingLoad_mutates_obs_counterexample :
    (trainingLoadFromAdata adC6 .useX "control" [("drug", [some "drug"])] [] [] [] []
        none 0).map (fun out => out.2) =
      .ok [("control", { dtype := .booleanD, vals := [.b true, .b false] }),
           ("drug", { dtype := .float64, vals := [.f 0, .f 1] })] ∧
    [("control", { dtype := Dtype.booleanD, vals := [.b true, .b false] }),
     ("drug", { dtype := Dtype.float64, vals := [.f 0, .f 1] })] ≠ adC6.obs := by
  exact ⟨by decide, by decide⟩

/-- C6 amended: the assembler mutates the caller's dataset in place: a
control column that is not boolean dtype but boolean-coercible is replaced
in the caller's obs by its boolean-coerced version during control
verification, the updated obs differs from the input obs, and the change
persists in the obs returned by the training factory. -/
theorem controlCoercion_mutates_caller_obs (obs : Obs) (key : String) (c c2 : Col)
    (hlook : lookupCol obs key = some c)
    (hdt : c.dtype ≠ .booleanD)
    (hco : astypeBoolean c = some c2)
    (hcnt : c2.vals.countP (fun v => v == .b true) ≠ 0) :
    verifyControlDataL obs (.str key) = .ok (setCol obs key c2) ∧
    setCol obs key c2 ≠ obs ∧
    (trainingLoadFromAdata adC6 .useX "control" [("drug", [some "drug"])] [] [] [] []
        none 0).map (fun out => out.2) ≠ .ok adC6.obs := by
  refine ⟨?_, ?_, by decide⟩
  · simp only [verifyControlDataL, lookupColLabel, hlook, hdt, if_false, hco]
    simp [hcnt]
  · intro heq
    have hl2 : lookupCol (setCol obs key c2) key = some c2 :=
      lookupCol_setCol obs key c c2 hlook
    rw [heq, hlook] at hl2
    have hbd : c2.dtype = .booleanD := astypeBoolean_dtype c c2 hco
    have : c = c2 := by injection hl2
    rw [this, hbd] at hdt
    exact hdt rfl

/-- Witness for controlCoercion_mutates_caller_obs at a concrete
object-dtype control column. -/
theorem controlCoercion_mutates_caller_obs_witness :
    verifyControlDataL [("c", { dtype := .objectD, vals := [.b true] })] (.str "c") =
      .ok (setCol [("c", { dtype := .objectD, vals := [.b true] })] "c"
        { dtype := .booleanD, vals := [.b true] }) ∧
    setCol [("c", { dtype := .objectD, vals := [.b true] })] "c"
        { dtype := .booleanD, vals := [.b true] } ≠
      [("c", { dtype := .objectD, vals := [.b true] })] ∧
    (trainingLoadFromAdata adC6 .useX "control" [("drug", [some "drug"])] [] [] [] []
        none 0).map (fun out => out.2) ≠ .ok adC6.obs :=
  controlCoercion_mutates_caller_obs [("c", { dtype := .objectD, vals := [.b true] })]
    "c" { dtype := .objectD, vals := [.b true] } { dtype := .booleanD, vals := [.b true] }
    (by decide) (by decide) (by decide) (by decide)

/-- C5: ValidationData.load_from_adata never returns a container: after the
synthetic helper column is injected, line 677 passes the (column, value)
control tuple to _verify_control_data, which looks the tuple up as a
single obs column label; obs columns are string-labelled, so the lookup
fails and every call raises the "control column not found" ValueError,
for every dataset, control tuple, split covariates and configuration. -/
theorem validationLoad_control_tuple_always_fails
    (ad : AData) (controlData : String × PyV) (splitCovariates : List String)
    (obsCovs : List (List String)) (unsCovs : List (String × List String))
    (L : Nat) (nv : Option ℚ) (nt : ℚ)
    (embedFn : List Bool → Except PErr (List (String × NDArray))) :
    validationLoadFromAdata ad controlData splitCovariates obsCovs unsCovs L nv nt
      embedFn = .error (.valueError "Control column not found in adata.obs.") := by
  rfl

/-- Membership in a step-1 range: the interval [s, s + n). -/
theorem mem_range1 (s n m : Nat) : m ∈ List.range' s n ↔ s ≤ m ∧ m < s + n := by
  rw [List.mem_range']
  constructor
  · rintro ⟨i, hi, rfl⟩
    omega
  · intro hm
    exact ⟨m - s, by omega, by omega⟩

/-- Elements of a mask after a masked assignment are the written value or
old elements. -/
theorem mem_setMask (v : Int) :
    ∀ (m : List Int) (sel : List Bool), ∀ x ∈ setMask m sel v, x = v ∨ x ∈ m
  | [], sel => by simp [setMask]
  | a :: t, [] => by simp [setMask]
  | a :: t, s :: st => by
    intro x hx
    simp only [setMask, List.zipWith_cons_cons] at hx
    rcases List.mem_cons.mp hx with hx | hx
    · cases s with
      | true => exact Or.inl (by simpa using hx)
      | false =>
        subst hx
        exact Or.inr (List.mem_cons_self _ _)
    · rcases mem_setMask v t st x hx with h | h
      · exact Or.inl h
      · exact Or.inr (List.mem_cons_of_mem _ h)

/-- Behaviour of the inner target loop: target indices are handed out
consecutively, the reachable-target accumulator collects exactly the new
indices in order, control bookkeeping is untouched, mask entries are old
entries or newly handed-out indices, and every new index is recorded in
perturbation_idx_to_covariates. -/
theorem trainTgtLoop_spec (ctx : TrainCtx) (splitSel : List Bool) :
    ∀ (combs : List (List PyV)) (acc : TrainLoopAcc) (cds : List Nat)
      (acc2 : TrainLoopAcc) (cds2 : List Nat),
    trainTgtLoop ctx splitSel combs acc cds = .ok (acc2, cds2) →
    acc.tgtCounter ≤ acc2.tgtCounter ∧
    cds2 = cds ++ List.range' acc.tgtCounter (acc2.tgtCounter - acc.tgtCounter) ∧
    acc2.ctrlToPert = acc.ctrlToPert ∧
    acc2.srcCounter = acc.srcCounter ∧
    (∀ x ∈ acc2.pertMask, x ∈ acc.pertMask ∨
      ∃ n : Nat, x = Int.ofNat n ∧ acc.tgtCounter ≤ n ∧ n < acc2.tgtCounter) ∧
    (∀ q ∈ acc.pertIdxTo, q ∈ acc2.pertIdxTo) ∧
    (∀ n : Nat, acc.tgtCounter ≤ n → n < acc2.tgtCounter →
      ∃ vals, (n, vals) ∈ acc2.pertIdxTo) := by
  intro combs
  induction combs with
  | nil =>
    intro acc cds acc2 cds2 h
    simp only [trainTgtLoop] at h
    obtain ⟨rfl, rfl⟩ := Prod.mk.inj (Except.ok.inj h)
    exact ⟨Nat.le_refl _, by simp, rfl, rfl, fun x hx => Or.inl hx,
      fun q hq => hq, fun n h1 h2 => absurd h2 (by omega)⟩
  | cons tgtVals rest ih =>
    intro acc cds acc2 cds2 h
    simp only [trainTgtLoop] at h
    split at h
    · exact ih acc cds acc2 cds2 h
    · split at h
      · exact Except.noConfusion h
      · split at h
        · exact Except.noConfusion h
        · rename_i hcnt embedding hemb condData2 happ
          obtain ⟨h1, h2, h3, h4, h5, h6, h7⟩ := ih _ _ _ _ h
          simp only at h1 h2 h3 h4 h5 h6 h7
          refine ⟨by omega, ?_, h3, h4, ?_, ?_, ?_⟩
          · rw [h2]
            have hk : acc2.tgtCounter - acc.tgtCounter =
                (acc2.tgtCounter - (acc.tgtCounter + 1)) + 1 := by omega
            rw [hk, List.range'_succ]
            simp
          · intro x hx
            rcases h5 x hx with hx2 | hx2
            · rcases mem_setMask _ _ _ x hx2 with hx3 | hx3
              · exact Or.inr ⟨acc.tgtCounter, hx3, Nat.le_refl _, by omega⟩
              · exact Or.inl hx3
            · obtain ⟨n, hn1, hn2, hn3⟩ := hx2
              exact Or.inr ⟨n, hn1, by omega, hn3⟩
          · intro q hq
            exact h6 q (List.mem_append_left _ hq)
          · intro n hn1 hn2
            by_cases hn : n = acc.tgtCounter
            · subst hn
              exact ⟨tgtVals, h6 _ (List.mem_append_right _ (List.mem_singleton_self _))⟩
            · exact h7 n (by omega) hn2

/-- Behaviour of the outer split loop: reachable-target lists partition the
newly handed-out target indices (each new index is counted in exactly one
control population's list), every list element is below the final counter,
mask entries are old entries or handed-out indices, and every handed-out
index is recorded in perturbation_idx_to_covariates. -/
theorem trainSrcLoop_spec (ctx : TrainCtx) (splits : List String)
    (tgtCombs : List (List PyV)) :
    ∀ (combs : List (List PyV)) (acc accF : TrainLoopAcc),
    trainSrcLoop ctx splits tgtCombs combs acc = .ok accF →
    (∀ p ∈ acc.ctrlToPert, ∀ n ∈ p.2, n < acc.tgtCounter) →
    acc.tgtCounter ≤ accF.tgtCounter ∧
    (∀ p ∈ accF.ctrlToPert, ∀ n ∈ p.2, n < accF.tgtCounter) ∧
    (∀ x ∈ accF.pertMask, x ∈ acc.pertMask ∨
      ∃ n : Nat, x = Int.ofNat n ∧ n < accF.tgtCounter) ∧
    (∀ n : Nat, n < accF.tgtCounter →
      accF.ctrlToPert.countP (fun p => decide (n ∈ p.2)) =
        if n < acc.tgtCounter then
          acc.ctrlToPert.countP (fun p => decide (n ∈ p.2))
        else 1) ∧
    (∀ n : Nat, acc.tgtCounter ≤ n → n < accF.tgtCounter →
      ∃ vals, (n, vals) ∈ accF.pertIdxTo) ∧
    (∀ q ∈ acc.pertIdxTo, q ∈ accF.pertIdxTo) := by
  intro combs
  induction combs with
  | nil =>
    intro acc accF h hinv
    simp only [trainSrcLoop] at h
    obtain rfl := Except.ok.inj h
    refine ⟨Nat.le_refl _, hinv, fun x hx => Or.inl hx, ?_, ?_, fun q hq => hq⟩
    · intro n hn
      rw [if_pos hn]
    · intro n h1 h2
      exact absurd h2 (by omega)
  | cons comb rest ih =>
    intro acc accF h hinv
    simp only [trainSrcLoop] at h
    split at h
    · exact Except.noConfusion h
    · rename_i acc2 cds htgt
      obtain ⟨t1, t2, t3, t4, t5, t6, t7⟩ := trainTgtLoop_spec ctx _ _ _ _ _ _ htgt
      simp only at t1 t2 t3 t4 t5 t6 t7
      rw [List.nil_append] at t2
      have hinv3 : ∀ p ∈ acc2.ctrlToPert ++ [(acc2.srcCounter, cds)],
          ∀ n ∈ p.2, n < acc2.tgtCounter := by
        intro p hp n hn
        rcases List.mem_append.mp hp with hp | hp
        · rw [t3] at hp
          exact Nat.lt_of_lt_of_le (hinv p hp n hn) t1
        · rw [List.mem_singleton.mp hp] at hn
          rw [t2] at hn
          have := (mem_range1 _ _ _).mp hn
          omega
      obtain ⟨s1, s2, s3, s4, s5, s6⟩ := ih _ _ h hinv3
      simp only at s1 s2 s3 s4 s5 s6
      have hzero : ∀ n : Nat, acc.tgtCounter ≤ n →
          acc.ctrlToPert.countP (fun p => decide (n ∈ p.2)) = 0 := by
        intro n hn
        rw [List.countP_eq_zero]
        intro p hp
        simp only [decide_eq_true_eq]
        intro hmem
        exact absurd (hinv p hp n hmem) (by omega)
      refine ⟨by omega, s2, ?_, ?_, ?_, ?_⟩
      · intro x hx
        rcases s3 x hx with hx2 | hx2
        · rcases t5 x hx2 with hx3 | hx3
          · exact Or.inl hx3
          · obtain ⟨n, hn1, hn2, hn3⟩ := hx3
            exact Or.inr ⟨n, hn1, by omega⟩
        · exact Or.inr hx2
      · intro n hn
        have hcnt := s4 n hn
        rw [List.countP_append, List.countP_cons, List.countP_nil] at hcnt
        by_cases hlt : n < acc.tgtCounter
        · rw [if_pos hlt]
          have hnot : ¬ (n ∈ cds) := by
            rw [t2, mem_range1]
            omega
          rw [if_pos (by omega : n < acc2.tgtCounter)] at hcnt
          simp only [hnot, t3] at hcnt
          simpa using hcnt
        · rw [if_neg hlt]
          by_cases hlt2 : n < acc2.tgtCounter
          · have hmem : n ∈ cds := by
              rw [t2, mem_range1]
              omega
            rw [if_pos hlt2] at hcnt
            have hz : acc2.ctrlToPert.countP (fun p => decide (n ∈ p.2)) = 0 := by
              rw [t3]
              exact hzero n (by omega)
            rw [hz] at hcnt
            simp only [hmem] at hcnt
            simpa using hcnt
          · rw [if_neg hlt2] at hcnt
            exact hcnt
      · intro n hn1 hn2
        by_cases hlt : n < acc2.tgtCounter
        · obtain ⟨vals, hv⟩ := t7 n hn1 hlt
          exact ⟨vals, s6 _ hv⟩
        · exact s5 n (by omega) hn2
      · intro q hq
        exact s6 q (t6 q hq)

/-- For every dataset and configuration on which the training factory
returns a container, the reachable-target lists of control_to_perturbation
partition the recorded target indices: every target index present in
perturbation_covariates_mask is counted in exactly one reachable-target
list, and every index in any reachable-target list is a key of
perturbation_idx_to_covariates. -/
theorem trainingLoad_reachable_target_partition
    (ad : AData) (sampleRep : SampleRep) (controlKey : String)
    (perturbationCovariates : List (String × List (Option String)))
    (perturbationCovariateReps : List (String × String))
    (sampleCovariates : List String)
    (sampleCovariateReps : List (String × String))
    (splitCovariates : List String)
    (maxCombinationLength : Option Nat) (nullValue : ℚ)
    (c : TrainingContainer) (obsOut : Obs)
    (h : trainingLoadFromAdata ad sampleRep controlKey perturbationCovariates
      perturbationCovariateReps sampleCovariates sampleCovariateReps
      splitCovariates maxCombinationLength nullValue = .ok (c, obsOut)) :
    (∀ n : Nat, Int.ofNat n ∈ c.perturbationCovariatesMask →
      c.controlToPerturbation.countP (fun p => decide (n ∈ p.2)) = 1) ∧
    (∀ p ∈ c.controlToPerturbation, ∀ n ∈ p.2,
      ∃ vals, (n, vals) ∈ c.perturbationIdxToCovariates) := by
  simp only [trainingLoadFromAdata] at h
  split at h
  · exact Except.noConfusion h
  split at h
  · exact Except.noConfusion h
  split at h
  · exact Except.noConfusion h
  split at h
  · exact Except.noConfusion h
  split at h
  · exact Except.noConfusion h
  split at h
  · exact Except.noConfusion h
  split at h
  · exact Except.noConfusion h
  split at h
  · exact Except.noConfusion h
  split at h
  · exact Except.noConfusion h
  split at h
  · exact Except.noConfusion h
  rename_i xsrc accF hsrc xcell cellData hcell
  obtain ⟨hc, hobs⟩ := Prod.mk.inj (Except.ok.inj h)
  subst hc
  obtain ⟨p1, p2, p3, p4, p5, p6⟩ :=
    trainSrcLoop_spec _ _ _ _ _ _ hsrc (by simp)
  simp only at p1 p2 p3 p4 p5 p6
  constructor
  · intro n hmem
    rcases p3 _ hmem with hx | hx
    · cases List.eq_of_mem_replicate hx
    · obtain ⟨m, hm1, hm2⟩ := hx
      have hnm : n = m := Int.ofNat.inj hm1
      subst hnm
      have := p4 n hm2
      rw [if_neg (by omega)] at this
      exact this
  · intro p hp n hn
    exact p5 n (by omega) (p2 p hp n hn)
